import Mathlib

/-!
# Verification of the ts-prims runtime constraint engine and range tiers

This file shallowly embeds the runtime core of the `ts-prims` repository:

* `src/prim.ts` — the `Prim` factory producing runtime constructors with
  `is` / `as` / `to` operations over an inherited constraint sequence
  (the variant taking `(name, superConstructor, constraints)`, which is the
  most complete variant of the engine);
* `src/chars.ts` (`charsConstraint`) and the default `superConstraint`;
* `src/range.ts` — the tier mapping `range<N>` for string lengths `0..1023`;
* `src/length.ts` — the cached parameterized `Varchar` factory (the variant
  with the module-level `varchars` sparse-array cache), together with the
  `Memo` / `Text` ancestry its validator uses;
* `src/integer.ts` / `numeric.ts` — the bounded integer validator.

Modelling conventions:

* JavaScript primitive values are `PRIM` below.  JS `number` values are
  modelled as `Int`: every value the verified claims exercise is an integral
  number far below 2^53, where JS float arithmetic (`Math.pow`, comparisons)
  is exact and `Number.isInteger` holds.
* Constraints in the source receive the full constructor object but the
  engine and all constraints in the repository consult only its `name` and
  its underlying primitive kind `primTypeOf(pc)`; a constraint is therefore
  a function of this observable view (`CtorInfo`).  For claim C8, where a
  user constraint's ability to also observe `result.constraints` (the
  stored sequence of constraint function objects) is decisive, an extended
  model (`SeqConstraint` / `SeqConstructor`) additionally exposes the
  identity tags of that sequence in order.
* A constraint returns `string | undefined`; the engine tests the result
  with JS truthiness (`if (err)`), under which the empty string counts as
  "no error".  `jsTruthy` models this exactly.
* `as` throws a `TypeError` carrying a message; exceptions are modelled with
  `Except String`.  `is` and all constraints are total pure functions, which
  mirrors the fact that the source never throws from `is` and that its
  constraint evaluation is synchronous.
-/

/-- The four JS primitive kinds distinguished by `typeof` in the source. -/
inductive PrimKind where
  | bool
  | str
  | num
  | bigint
deriving DecidableEq, Repr

/-- Display name of a primitive kind as produced by the JS `typeof` operator. -/
def PrimKind.jsName : PrimKind → String
  | .bool => "boolean"
  | .str => "string"
  | .num => "number"
  | .bigint => "bigint"

/-- A primitive value: `boolean | string | number | bigint` (`PRIM` in
`src/prim.ts`).  JS numbers are modelled as integers (see file comment). -/
inductive PRIM where
  | bool (b : Bool)
  | str (s : String)
  | num (n : Int)
  | bigint (n : Int)
deriving DecidableEq, Repr

/-- Result of the JS `typeof` operator on a primitive value. -/
def PRIM.typeOf : PRIM → PrimKind
  | .bool _ => .bool
  | .str _ => .str
  | .num _ => .num
  | .bigint _ => .bigint

/-- JS string conversion of a boolean. -/
def boolStr (b : Bool) : String := if b then "true" else "false"

/-- JS string conversion of an (integral) number or bigint. -/
def intStr (n : Int) : String := toString n

/-- Embedding of `display` from `src/prim.ts`: strings are wrapped in double
quotes, other primitives use the natural JS to-string. -/
def display : PRIM → String
  | .str s => "\"" ++ s ++ "\""
  | .bool b => boolStr b
  | .num n => intStr n
  | .bigint n => intStr n

/-- The observable view of a constructor that constraints consult:
its `name` and its underlying primitive kind `primTypeOf(pc)`. -/
structure CtorInfo where
  name : String
  primType : PrimKind
deriving DecidableEq, Repr

/-- A constraint (`Constraint` in `src/prim.ts`): a function from the
constructor (observable view) and a candidate value to
`string | undefined` — `none` means accepted, `some msg` is an error. -/
def Constraint := CtorInfo → PRIM → Option String

/-- JS truthiness of a `string | undefined` result: `undefined` and the
empty string are falsy, any non-empty string is truthy.  This is exactly
the `if (err)` test used by the engine's loops. -/
def jsTruthy : Option String → Bool
  | none => false
  | some s => !s.isEmpty

/-- Embedding of `superConstraint` from `src/prim.ts`: the value's `typeof`
must equal the constructor's underlying primitive kind. -/
def superConstraint : Constraint := fun pc v =>
  if v.typeOf = pc.primType then none
  else some (display v ++ " is not assignable to type '" ++ pc.name ++ "'.\n" ++
    "  Supertypes do not match: " ++ v.typeOf.jsName ++ ", " ++ pc.primType.jsName ++ ".")

/-- A runtime constructor: either a native constructor (`Boolean`, `String`,
`Number`, `BigInt`) or a constructor produced by the `Prim` factory, which
stores its name, its super constructor and its full constraint sequence
(the source assigns the already-concatenated list to `result.constraints`). -/
inductive Constructor where
  | native (k : PrimKind)
  | prim (name : String) (sup : Constructor) (constraints : List Constraint)

/-- Embedding of `primTypeOf` from `src/prim.ts`: follow `super` links, and
map a native constructor to its kind (the source compares against
`Boolean` / `String` / `Number` with a `bigint` fallback). -/
def primTypeOf : Constructor → PrimKind
  | .native k => k
  | .prim _ sup _ => primTypeOf sup

/-- JS `name` of a constructor function (native constructors carry their
built-in names). -/
def ctorName : Constructor → String
  | .native .bool => "Boolean"
  | .native .str => "String"
  | .native .num => "Number"
  | .native .bigint => "BigInt"
  | .prim n _ _ => n

/-- The observable view of a constructor passed to constraints. -/
def infoOf (c : Constructor) : CtorInfo :=
  { name := ctorName c, primType := primTypeOf c }

/-- Embedding of `constraintsOf` from `src/prim.ts`: a prim constructor's
stored constraint list, or `[superConstraint]` for a native constructor. -/
def constraintsOf : Constructor → List Constraint
  | .native _ => [superConstraint]
  | .prim _ _ cs => cs

/-- Embedding of the `Prim` factory (`src/prim.ts`, lines 364–391): the new
constructor's constraint sequence is the super constructor's constraints
followed by the supplied new constraints (line 375). -/
def Prim (name : String) (pc : Constructor) (cs : List Constraint) : Constructor :=
  .prim name pc (constraintsOf pc ++ cs)

/-- The loop body of `result.is`: test each constraint in sequence against
`v`, returning `false` at the first JS-truthy error, else `true`. -/
def runIs (info : CtorInfo) : List Constraint → PRIM → Bool
  | [], _ => true
  | c :: rest, v => if jsTruthy (c info v) then false else runIs info rest v

/-- Embedding of `result.is`: run the constructor's own constraint sequence,
passing the constructor itself (`result`) to each constraint. -/
def Constructor.is (c : Constructor) (v : PRIM) : Bool :=
  runIs (infoOf c) (constraintsOf c) v

/-- The loop body of `result.as`: at the first JS-truthy error, throw a
`TypeError` carrying that message; otherwise fall through silently. -/
def runAs (info : CtorInfo) : List Constraint → PRIM → Except String Unit
  | [], _ => .ok ()
  | c :: rest, v =>
    let err := c info v
    if jsTruthy err then .error (err.getD "") else runAs info rest v

/-- Embedding of `result.as`. -/
def Constructor.as (c : Constructor) (v : PRIM) : Except String Unit :=
  runAs (infoOf c) (constraintsOf c) v

/-- Embedding of `result.to` (line 389): run `as`, then return the input
value itself, unchanged. -/
def Constructor.to (c : Constructor) (v : PRIM) : Except String PRIM :=
  match c.as v with
  | .error e => .error e
  | .ok () => .ok v

/-- Embedding of the constructor function itself (line 370): the named
function produced by `Prim` forwards its argument to `result.to`. -/
def Constructor.call (c : Constructor) (v : PRIM) : Except String PRIM :=
  c.to v

/-- Specification-side view of the evaluation loops: the message of the
first constraint in the sequence that produces a JS-truthy error on `v`,
if any. -/
def firstFailure (c : Constructor) (v : PRIM) : Option String :=
  (constraintsOf c).findSome? fun con =>
    let r := con (infoOf c) v
    if jsTruthy r then some (r.getD "") else none

/-! ## Embedding of `src/range.ts`

The union types of `range.ts` are sets of small naturals.  Each named
union (`_488`, `_496`, …) is defined from the same building blocks as the
source: `_480 = LT<480>` is `0..479`, each `_a_b` block lists the literals
`a..b`, and each tier is the union written in the source.  `range<N>` is
the ordered conditional chain of lines 18–37; note that the source chain
has no alternative for `_608_639` (the `_640` tier is defined on lines
116–121 but never selected), so `608..639` falls through to `_1K`. -/

/-- Membership in `_480 = LT<480>` — the naturals `0..479`. -/
def mem_480 (k : Nat) : Bool := k < 480

/-- Membership in the literal block `_480_487`. -/
def mem_480_487 (k : Nat) : Bool := 480 ≤ k && k ≤ 487

/-- Membership in the literal block `_488_495`. -/
def mem_488_495 (k : Nat) : Bool := 488 ≤ k && k ≤ 495

/-- Membership in the literal block `_496_503`. -/
def mem_496_503 (k : Nat) : Bool := 496 ≤ k && k ≤ 503

/-- Membership in the literal block `_504_512` (note: includes `512`). -/
def mem_504_512 (k : Nat) : Bool := 504 ≤ k && k ≤ 512

/-- Membership in the literal block `_512_527` (note: starts at `512`). -/
def mem_512_527 (k : Nat) : Bool := 512 ≤ k && k ≤ 527

/-- Membership in the literal block `_528_543`. -/
def mem_528_543 (k : Nat) : Bool := 528 ≤ k && k ≤ 543

/-- Membership in the literal block `_544_559`. -/
def mem_544_559 (k : Nat) : Bool := 544 ≤ k && k ≤ 559

/-- Membership in the literal block `_560_575`. -/
def mem_560_575 (k : Nat) : Bool := 560 ≤ k && k ≤ 575

/-- Membership in the literal block `_576_607`. -/
def mem_576_607 (k : Nat) : Bool := 576 ≤ k && k ≤ 607

/-- Membership in the literal block `_608_639` (defined in the source but
never tested by the `range` chain). -/
def mem_608_639 (k : Nat) : Bool := 608 ≤ k && k ≤ 639

/-- Membership in the literal block `_640_671`. -/
def mem_640_671 (k : Nat) : Bool := 640 ≤ k && k ≤ 671

/-- Membership in the literal block `_672_703`. -/
def mem_672_703 (k : Nat) : Bool := 672 ≤ k && k ≤ 703

/-- Membership in the literal block `_704_735`. -/
def mem_704_735 (k : Nat) : Bool := 704 ≤ k && k ≤ 735

/-- Membership in the literal block `_736_767`. -/
def mem_736_767 (k : Nat) : Bool := 736 ≤ k && k ≤ 767

/-- Membership in the literal block `_768_831`. -/
def mem_768_831 (k : Nat) : Bool := 768 ≤ k && k ≤ 831

/-- Membership in the literal block `_832_895`. -/
def mem_832_895 (k : Nat) : Bool := 832 ≤ k && k ≤ 895

/-- Membership in the literal block `_896_959`. -/
def mem_896_959 (k : Nat) : Bool := 896 ≤ k && k ≤ 959

/-- Membership in the literal block `_960_1023`. -/
def mem_960_1023 (k : Nat) : Bool := 960 ≤ k && k ≤ 1023

/-- The tiers a `range<N>` request can resolve to: the exact tier
`LessThanEqual<N>` for `N < 480`, and the named coarse tiers of the
source, including the defined-but-never-selected `_640`. -/
inductive Tier where
  | exact (n : Nat)
  | t488
  | t496
  | t504
  | t512
  | t528
  | t544
  | t560
  | t576
  | t608
  | t640
  | t672
  | t704
  | t736
  | t768
  | t832
  | t896
  | t960
  | t1K
deriving DecidableEq, Repr

/-- Membership in `_488 = _480 | _480_487`. -/
def mem_488 (k : Nat) : Bool := mem_480 k || mem_480_487 k

/-- Membership in `_496 = _488 | _488_495`. -/
def mem_496 (k : Nat) : Bool := mem_488 k || mem_488_495 k

/-- Membership in `_504 = _496 | _496_503`. -/
def mem_504 (k : Nat) : Bool := mem_496 k || mem_496_503 k

/-- Membership in `_512 = _504 | _504_512`. -/
def mem_512 (k : Nat) : Bool := mem_504 k || mem_504_512 k

/-- Membership in `_528 = _512 | _512_527`. -/
def mem_528 (k : Nat) : Bool := mem_512 k || mem_512_527 k

/-- Membership in `_544 = _528 | _528_543`. -/
def mem_544 (k : Nat) : Bool := mem_528 k || mem_528_543 k

/-- Membership in `_560 = _544 | _544_559`. -/
def mem_560 (k : Nat) : Bool := mem_544 k || mem_544_559 k

/-- Membership in `_576 = _560 | _560_575`. -/
def mem_576 (k : Nat) : Bool := mem_560 k || mem_560_575 k

/-- Membership in `_608 = _576 | _576_607`. -/
def mem_608 (k : Nat) : Bool := mem_576 k || mem_576_607 k

/-- Membership in `_640 = _608 | _608_639`. -/
def mem_640 (k : Nat) : Bool := mem_608 k || mem_608_639 k

/-- Membership in `_672 = _640 | _640_671`. -/
def mem_672 (k : Nat) : Bool := mem_640 k || mem_640_671 k

/-- Membership in `_704 = _672 | _672_703`. -/
def mem_704 (k : Nat) : Bool := mem_672 k || mem_672_703 k

/-- Membership in `_736 = _704 | _704_735`. -/
def mem_736 (k : Nat) : Bool := mem_704 k || mem_704_735 k

/-- Membership in `_512_767`, the union of the ten blocks listed in the
source between `512` and `767`. -/
def mem_512_767 (k : Nat) : Bool :=
  mem_512_527 k || mem_528_543 k || mem_544_559 k || mem_560_575 k ||
  mem_576_607 k || mem_608_639 k || mem_640_671 k || mem_672_703 k ||
  mem_704_735 k || mem_736_767 k

/-- Membership in `_768 = _512 | _512_767`. -/
def mem_768 (k : Nat) : Bool := mem_512 k || mem_512_767 k

/-- Membership in `_832 = _768 | _768_831`. -/
def mem_832 (k : Nat) : Bool := mem_768 k || mem_768_831 k

/-- Membership in `_896 = _832 | _832_895`. -/
def mem_896 (k : Nat) : Bool := mem_832 k || mem_832_895 k

/-- Membership in `_960 = _896 | _896_959`. -/
def mem_960 (k : Nat) : Bool := mem_896 k || mem_896_959 k

/-- Membership in `_768_959 = _768_831 | _832_895 | _896_959`. -/
def mem_768_959 (k : Nat) : Bool := mem_768_831 k || mem_832_895 k || mem_896_959 k

/-- Membership in `_768_1023 = _768_959 | _960_1023`. -/
def mem_768_1023 (k : Nat) : Bool := mem_768_959 k || mem_960_1023 k

/-- Membership in `_1K = _768 | _768_1023`. -/
def mem_1K (k : Nat) : Bool := mem_768 k || mem_768_1023 k

/-- Membership in a tier's union type: `LessThanEqual<N> = N | LessThan<N>`
is `0..N`, and the named tiers use the union definitions above. -/
def tierMem : Tier → Nat → Bool
  | .exact n, k => k ≤ n
  | .t488, k => mem_488 k
  | .t496, k => mem_496 k
  | .t504, k => mem_504 k
  | .t512, k => mem_512 k
  | .t528, k => mem_528 k
  | .t544, k => mem_544 k
  | .t560, k => mem_560 k
  | .t576, k => mem_576 k
  | .t608, k => mem_608 k
  | .t640, k => mem_640 k
  | .t672, k => mem_672 k
  | .t704, k => mem_704 k
  | .t736, k => mem_736 k
  | .t768, k => mem_768 k
  | .t832, k => mem_832 k
  | .t896, k => mem_896 k
  | .t960, k => mem_960 k
  | .t1K, k => mem_1K k

/-- Embedding of the conditional chain of `range<N>` (`src/range.ts`,
lines 18–37), alternative by alternative, in source order.  There is no
`_608_639` alternative in the source, so `608..639` reaches the final
`_1K` fallback. -/
def resolveTier (N : Nat) : Tier :=
  if mem_480 N then .exact N
  else if mem_480_487 N then .t488
  else if mem_488_495 N then .t496
  else if mem_496_503 N then .t504
  else if mem_504_512 N then .t512
  else if mem_512_527 N then .t528
  else if mem_528_543 N then .t544
  else if mem_544_559 N then .t560
  else if mem_560_575 N then .t576
  else if mem_576_607 N then .t608
  else if mem_640_671 N then .t672
  else if mem_672_703 N then .t704
  else if mem_704_735 N then .t736
  else if mem_736_767 N then .t768
  else if mem_768_831 N then .t832
  else if mem_832_895 N then .t896
  else if mem_896_959 N then .t960
  else .t1K

/-- The magnitude of a tier: the largest number contained in its union. -/
def tierMagnitude : Tier → Nat
  | .exact n => n
  | .t488 => 487
  | .t496 => 495
  | .t504 => 503
  | .t512 => 512
  | .t528 => 527
  | .t544 => 543
  | .t560 => 559
  | .t576 => 575
  | .t608 => 607
  | .t640 => 639
  | .t672 => 671
  | .t704 => 703
  | .t736 => 735
  | .t768 => 767
  | .t832 => 831
  | .t896 => 895
  | .t960 => 959
  | .t1K => 1023

/-! ## Library constraints and validators used by the claims -/

/-- Embedding of JS `v.length`: the length of a string value.  Every use in
the source sits behind a `typeof v == 'string'` (or `Text.is`) guard, so
the value returned on non-strings is never observed. -/
def strLen : PRIM → Nat
  | .str s => s.length
  | _ => 0

/-- Embedding of `charsConstraint` from `src/chars.ts`: the value must be a
string of length at most `l`, otherwise an error naming the constructor and
the bound is produced.  The source's `console.info` debug logging does not
affect the returned value and is dropped. -/
def charsConstraint (l : Nat) : Constraint := fun pc v =>
  if v.typeOf = PrimKind.str ∧ strLen v ≤ l then none
  else some (display v ++ " is not assignable to '" ++ pc.name ++ "'.\n" ++
    "  Length exceeds " ++ toString l ++ ".")

/-- The `Family` union of `numeric.ts`: `'real' | 'integer'`. -/
inductive Family where
  | real
  | integer
deriving DecidableEq, Repr

/-- The `Signed` union of `numeric.ts`: `'signed' | 'unsigned'`. -/
inductive Signed where
  | signed
  | unsigned
deriving DecidableEq, Repr

/-- Embedding of `Number.isInteger(v)`: JS numbers are modelled as integral
values (see file comment), so this holds exactly for number values. -/
def numIsInteger : PRIM → Bool
  | .num _ => true
  | _ => false

/-- Embedding of the JS comparison `v >= 0`; it is only reached for number
values (the `typeof` guard of the rtti engine short-circuits otherwise). -/
def numNonNeg : PRIM → Bool
  | .num i => 0 ≤ i
  | _ => false

/-- Custom `is` of `Numeric` (`numeric.ts`):
`(family == 'real' || Number.isInteger(v)) && (signed == 'signed' || v >= 0)`. -/
def numericIsCustom (family : Family) (s : Signed) (v : PRIM) : Bool :=
  (family == .real || numIsInteger v) && (s == .signed || numNonNeg v)

/-- Full `Numeric(bits, family, signed).is`: the rtti-variant `Prim` composes
the kind guard `isPrimOf` (no parent) with the custom `is`. -/
def numericIs (family : Family) (s : Signed) (v : PRIM) : Bool :=
  (v.typeOf == PrimKind.num) && numericIsCustom family s v

/-- Embedding of `Math.pow(2, bits - (s == 'signed' ? 1 : 0))` from
`src/integer.ts` — exact in JS floats for the bit counts in range. -/
def intMax (bits : Nat) (s : Signed) : Int :=
  2 ^ (bits - (if s == .signed then 1 else 0))

/-- Embedding of `s == 'signed' ? 0 - Math.pow(2, bits - 1) : 0` from
`src/integer.ts`. -/
def intMin (bits : Nat) (s : Signed) : Int :=
  if s == .signed then -(2 ^ (bits - 1)) else 0

/-- Custom `is` of `Integer` (`src/integer.ts`, lines 15–31):
`(v >= min) && (v < max)`; only reached for number values because the
parent (`Numeric`) guard short-circuits first. -/
def integerRangeOk (bits : Nat) (s : Signed) (v : PRIM) : Bool :=
  match v with
  | .num i => intMin bits s ≤ i && i < intMax bits s
  | _ => false

/-- Full `Integer(bits, s).is`: parent check (`Numeric(bits,'integer',s).is`)
composed with the custom range check, per the rtti-variant `isPrim`. -/
def integerIs (bits : Nat) (s : Signed) (v : PRIM) : Bool :=
  numericIs .integer s v && integerRangeOk bits s v

/-- Embedding of `Text.is` from the rtti-variant `text.ts`: no parent and no
custom `is`, so it reduces to the `typeof v == 'string'` kind guard. -/
def textIs (v : PRIM) : Bool := v.typeOf == PrimKind.str

/-- Embedding of `Memo.is` from the rtti-variant `memo.ts`: parent check
(`Text.is`) composed with the custom `Text.is(v) && v.length <= 65535`. -/
def memoIs (v : PRIM) : Bool := textIs v && (textIs v && strLen v ≤ 65535)

/-- Embedding of the custom `is` handed to `Prim` by the cached `Varchar`
factory: `Memo.is(v) && v.length <= n`, composed with the parent check
(`Memo.is`) by the rtti-variant `isPrim`. -/
def varcharIs (n : Nat) (v : PRIM) : Bool :=
  memoIs v && (memoIs v && strLen v ≤ n)

/-! ## Embedding of the cached `Varchar` factory (`src/length.ts`)

The module-level sparse array `varchars` is the only mutable state of the
engine; it is modelled by explicit state passing.  JS reference identity is
modelled by an allocation counter: every descriptor built by `Prim` gets a
fresh `id`, and two descriptors are "referentially identical" exactly when
their `id`s agree. -/

/-- A varchar descriptor: its allocation identity, its `max` option and its
validator. -/
structure VarcharDescr where
  id : Nat
  max : Nat
  is : PRIM → Bool

/-- The state of the `varchars` module-level cache: the next allocation
identity and the sparse array, keyed by the max length `n`. -/
structure VarcharState where
  nextId : Nat
  varchars : Nat → Option VarcharDescr

/-- The module's initial state: an empty cache. -/
def emptyVarcharState : VarcharState :=
  { nextId := 0, varchars := fun _ => none }

/-- Embedding of the cached `Varchar` factory (`src/length.ts`, lines
269–285): if `varchars[n]` is unset, build a descriptor via `Prim` and
store it; then return `varchars[n]`. -/
def Varchar (n : Nat) (s : VarcharState) : VarcharDescr × VarcharState :=
  match s.varchars n with
  | some d => (d, s)
  | none =>
    let d : VarcharDescr := { id := s.nextId, max := n, is := varcharIs n }
    (d, { nextId := s.nextId + 1,
          varchars := fun k => if k = n then some d else s.varchars k })

/-- Well-formedness of the cache state: every cached descriptor was
allocated earlier than the next fresh identity, and identities determine
cache keys. -/
def VarcharWF (s : VarcharState) : Prop :=
  (∀ k d, s.varchars k = some d → d.id < s.nextId) ∧
  (∀ k k' d d', s.varchars k = some d → s.varchars k' = some d' →
    d.id = d'.id → k = k')

/-! ## Fixtures used by counterexamples and witnesses -/

/-- A constraint whose error message is the empty string.  The `Constraint`
type of the source admits any string; the engine's `if (err)` test treats
the empty string as falsy. -/
def emptyMsgConstraint : Constraint := fun _ _ => some ""

/-- A constructor built by `Prim` over the native string constructor with
the empty-message constraint. -/
def c5ctor : Constructor := Prim "T" (.native .str) [emptyMsgConstraint]

/-- A constraint whose verdict depends on the receiving constructor's name:
it rejects exactly when evaluated against the descriptor named `A`.  The
source's `Constraint` type passes the constructor to the constraint, so
such a constraint is expressible by a library user. -/
def nameSensitiveConstraint : Constraint := fun pc _ =>
  if pc.name = "A" then some "explicitly rejected by descriptor A" else none

/-- Descriptor `A`: built by `Prim` over the native string constructor with
the name-sensitive constraint as its own constraint. -/
def ctorA : Constructor := Prim "A" (.native .str) [nameSensitiveConstraint]

/-- Descriptor `B`: built by `Prim` with parent `A` and no new constraints. -/
def ctorB : Constructor := Prim "B" ctorA []

/-- The `varchar<5>` constructor per `src/length.ts` (chars variant):
`Prim('varchar<5>', String, [charsConstraint(5)])`. -/
def varchar5 : Constructor := Prim "varchar<5>" (.native .str) [charsConstraint 5]

/-! ## Extended model: constraint-sequence observation (claim C8)

The `Constraint` view above exposes the receiving constructor's `name` and
underlying kind — all that the engine's own constraints consult, and enough
for the other claims.  The source, however, invokes `constraint(result, v)`
with the full constructor object, so a user-written constraint can also
observe `result.constraints`: the array of constraint function objects, in
order (for example by comparing entries by reference).  For claim C8 this
extra observable is decisive, so the model below extends the view with the
identity sequence of the stored constraints: each constraint carries a
`tag` standing for its JS function-object identity, and the view lists the
tags of the receiving constructor's constraint sequence in order. -/

/-- The extended observable view of a constructor: its `name`, its
underlying primitive kind, and the identity tags of its constraint
sequence (`result.constraints`) in storage order. -/
structure SeqCtorInfo where
  name : String
  primType : PrimKind
  constraintTags : List Nat
deriving DecidableEq, Repr

/-- A constraint in the extended model: an identity tag (standing for the
JS function object) together with its evaluation on the extended view. -/
structure SeqConstraint where
  tag : Nat
  eval : SeqCtorInfo → PRIM → Option String

/-- A runtime constructor in the extended model, mirroring `Constructor`. -/
inductive SeqConstructor where
  | native (k : PrimKind)
  | prim (name : String) (sup : SeqConstructor) (constraints : List SeqConstraint)

/-- Underlying primitive kind, as in `primTypeOf`. -/
def seqPrimTypeOf : SeqConstructor → PrimKind
  | .native k => k
  | .prim _ sup _ => seqPrimTypeOf sup

/-- JS `name` of a constructor function, as in `ctorName`. -/
def seqCtorName : SeqConstructor → String
  | .native .bool => "Boolean"
  | .native .str => "String"
  | .native .num => "Number"
  | .native .bigint => "BigInt"
  | .prim n _ _ => n

/-- The default `superConstraint` in the extended model: same verdict and
message as `superConstraint`, with tag `0` for its function identity. -/
def seqSuperConstraint : SeqConstraint :=
  { tag := 0,
    eval := fun pc v =>
      if v.typeOf = pc.primType then none
      else some (display v ++ " is not assignable to type '" ++ pc.name ++ "'.\n" ++
        "  Supertypes do not match: " ++ v.typeOf.jsName ++ ", " ++ pc.primType.jsName ++ ".") }

/-- The stored constraint sequence, as in `constraintsOf`. -/
def seqConstraintsOf : SeqConstructor → List SeqConstraint
  | .native _ => [seqSuperConstraint]
  | .prim _ _ cs => cs

/-- The `Prim` factory in the extended model (line 375 of `src/prim.ts`). -/
def seqPrim (name : String) (pc : SeqConstructor) (cs : List SeqConstraint) : SeqConstructor :=
  .prim name pc (seqConstraintsOf pc ++ cs)

/-- The extended view of a constructor handed to its constraints: name,
kind, and the tags of `result.constraints` in order. -/
def seqInfoOf (c : SeqConstructor) : SeqCtorInfo :=
  { name := seqCtorName c, primType := seqPrimTypeOf c,
    constraintTags := (seqConstraintsOf c).map SeqConstraint.tag }

/-- The `result.is` loop in the extended model, as in `runIs`. -/
def seqRunIs (info : SeqCtorInfo) : List SeqConstraint → PRIM → Bool
  | [], _ => true
  | c :: rest, v => if jsTruthy (c.eval info v) then false else seqRunIs info rest v

/-- Embedding of `result.is` in the extended model: run the constructor's
constraint sequence, passing the constructor itself (`result`) to each
constraint. -/
def SeqConstructor.is (c : SeqConstructor) (v : PRIM) : Bool :=
  seqRunIs (seqInfoOf c) (seqConstraintsOf c) v

/-- A constraint that keys its verdict on the order of the receiving
constructor's constraint sequence: it accepts exactly when it finds its own
identity at index 1 — the JS analogue is
`(pc, v) => pc.constraints[1] === thisFn ? undefined : 'rejected ...'`,
a pure, deterministic constraint over what `constraint(result, v)`
actually receives. -/
def orderSensitiveConstraint : SeqConstraint :=
  { tag := 1,
    eval := fun pc _ =>
      if pc.constraintTags.get? 1 = some 1 then none
      else some "rejected: this constraint expects to run second" }

/-- A constraint that accepts every value, with identity tag 2. -/
def inertSeqConstraint : SeqConstraint :=
  { tag := 2, eval := fun _ _ => none }

/-- The `charsConstraint` of the library carried over to the extended
model: its verdict ignores the constraint-tag component of the view. -/
def seqCharsConstraint (tag l : Nat) : SeqConstraint :=
  { tag := tag,
    eval := fun pc v =>
      if v.typeOf = PrimKind.str ∧ strLen v ≤ l then none
      else some (display v ++ " is not assignable to '" ++ pc.name ++ "'.\n" ++
        "  Length exceeds " ++ toString l ++ ".") }

/-! ## Helper lemmas -/

theorem runIs_eq_true_iff (info : CtorInfo) (l : List Constraint) (v : PRIM) :
    runIs info l v = true ↔ ∀ c ∈ l, jsTruthy (c info v) = false := by
  induction l with
  | nil => simp [runIs]
  | cons c rest ih =>
    by_cases h : jsTruthy (c info v)
    · simp [runIs, h]
    · simp only [runIs, h, if_neg, Bool.false_eq_true, ite_false, ih,
        List.mem_cons]
      constructor
      · rintro hr d (rfl | hd)
        · simpa using h
        · exact hr d hd
      · intro hr d hd
        exact hr d (Or.inr hd)

theorem runAs_eq (info : CtorInfo) (l : List Constraint) (v : PRIM) :
    runAs info l v =
      match l.findSome? (fun con =>
        let r := con info v
        if jsTruthy r then some (r.getD "") else none) with
      | some e => .error e
      | none => .ok () := by
  induction l with
  | nil => simp [runAs, List.findSome?]
  | cons c rest ih =>
    by_cases h : jsTruthy (c info v)
    · simp [runAs, h, List.findSome?_cons]
    · simp [runAs, h, List.findSome?_cons, ih]

theorem runIs_eq_isNone (info : CtorInfo) (l : List Constraint) (v : PRIM) :
    runIs info l v =
      (l.findSome? (fun con =>
        let r := con info v
        if jsTruthy r then some (r.getD "") else none)).isNone := by
  induction l with
  | nil => simp [runIs, List.findSome?]
  | cons c rest ih =>
    by_cases h : jsTruthy (c info v)
    · simp [runIs, h, List.findSome?_cons]
    · simp [runIs, h, List.findSome?_cons, ih]

theorem is_eq_true_iff (c : Constructor) (v : PRIM) :
    c.is v = true ↔ ∀ con ∈ constraintsOf c, jsTruthy (con (infoOf c) v) = false :=
  runIs_eq_true_iff _ _ _

theorem is_eq_firstFailure_isNone (c : Constructor) (v : PRIM) :
    c.is v = (firstFailure c v).isNone :=
  runIs_eq_isNone _ _ _

theorem as_eq_firstFailure (c : Constructor) (v : PRIM) :
    c.as v = match firstFailure c v with
      | some e => .error e
      | none => .ok () :=
  runAs_eq _ _ _

/-- The magnitude is the largest member: every member of a tier is at most
its magnitude. -/
theorem tierMem_le_magnitude (t : Tier) (k : Nat) (h : tierMem t k = true) :
    k ≤ tierMagnitude t := by
  cases t <;>
    simp only [tierMem, tierMagnitude, mem_1K, mem_960, mem_896, mem_832,
      mem_768, mem_736, mem_704, mem_672, mem_640, mem_608, mem_576, mem_560,
      mem_544, mem_528, mem_512, mem_504, mem_496, mem_488, mem_512_767,
      mem_768_959, mem_768_1023, mem_480, mem_480_487, mem_488_495,
      mem_496_503, mem_504_512, mem_512_527, mem_528_543, mem_544_559,
      mem_560_575, mem_576_607, mem_608_639, mem_640_671, mem_672_703,
      mem_704_735, mem_736_767, mem_768_831, mem_832_895, mem_896_959,
      mem_960_1023, Bool.or_eq_true, Bool.and_eq_true, decide_eq_true_eq] at h ⊢ <;>
    omega

/-- The magnitude of a tier is itself a member of the tier. -/
theorem magnitude_tierMem (t : Tier) : tierMem t (tierMagnitude t) = true := by
  cases t
  case exact n => simp [tierMem, tierMagnitude]
  all_goals decide

/-- For requests below the threshold the chain selects the exact tier. -/
theorem resolveTier_lt_480 (N : Nat) (h : N < 480) :
    resolveTier N = .exact N := by
  simp [resolveTier, mem_480, h]

theorem emptyVarcharState_wf : VarcharWF emptyVarcharState := by
  constructor
  · intro k d h
    exact Option.noConfusion h
  · intro k k' d d' h
    exact Option.noConfusion h

/-- After a `Varchar n` call the cache holds the returned descriptor at
key `n`. -/
theorem Varchar_cached (n : Nat) (s : VarcharState) :
    ((Varchar n s).2).varchars n = some (Varchar n s).1 := by
  unfold Varchar
  cases h : s.varchars n with
  | some d => simp [h]
  | none => simp [h]

/-- A `Varchar n` call preserves cache well-formedness. -/
theorem Varchar_wf (n : Nat) (s : VarcharState) (hs : VarcharWF s) :
    VarcharWF (Varchar n s).2 := by
  obtain ⟨h1, h2⟩ := hs
  unfold Varchar
  cases h : s.varchars n with
  | some d => simpa [h] using ⟨h1, h2⟩
  | none =>
    simp only [h]
    constructor
    · intro k e hk
      by_cases hkn : k = n
      · simp only [hkn, if_pos rfl] at hk
        cases hk
        dsimp only
        omega
      · simp only [if_neg hkn] at hk
        have := h1 k e hk
        dsimp only
        omega
    · intro k k' e e' hk hk' heq
      by_cases hkn : k = n <;> by_cases hkn' : k' = n
      · omega
      · simp only [hkn, if_pos rfl] at hk
        simp only [if_neg hkn'] at hk'
        cases hk
        have := h1 k' e' hk'
        dsimp only at heq
        omega
      · simp only [if_neg hkn] at hk
        simp only [hkn', if_pos rfl] at hk'
        cases hk'
        have := h1 k e hk
        dsimp only at heq
        omega
      · simp only [if_neg hkn] at hk
        simp only [if_neg hkn'] at hk'
        exact h2 k k' e e' hk hk' heq

/-- Keys other than `n` are untouched by a `Varchar n` call. -/
theorem Varchar_other (n m : Nat) (s : VarcharState) (h : m ≠ n) :
    ((Varchar n s).2).varchars m = s.varchars m := by
  unfold Varchar
  cases hc : s.varchars n with
  | some d => simp
  | none => simp [h]

theorem seqRunIs_eq_true_iff (info : SeqCtorInfo) (l : List SeqConstraint) (v : PRIM) :
    seqRunIs info l v = true ↔ ∀ c ∈ l, jsTruthy (c.eval info v) = false := by
  induction l with
  | nil => simp [seqRunIs]
  | cons c rest ih =>
    by_cases h : jsTruthy (c.eval info v)
    · simp [seqRunIs, h]
    · simp only [seqRunIs, h, if_neg, Bool.false_eq_true, ite_false, ih,
        List.mem_cons]
      constructor
      · rintro hr d (rfl | hd)
        · simpa using h
        · exact hr d hd
      · intro hr d hd
        exact hr d (Or.inr hd)

theorem seqIs_eq_true_iff (c : SeqConstructor) (v : PRIM) :
    c.is v = true ↔ ∀ con ∈ seqConstraintsOf c, jsTruthy (con.eval (seqInfoOf c) v) = false :=
  seqRunIs_eq_true_iff _ _ _

/-! ## Claim theorems -/

/-- C6: a constructor built by `Prim` has constraint sequence
`constraintsOf parent ++ newConstraints`; for a native parent the inherited
part is the sole default `superConstraint`, and with no new constraints the
sequence is exactly `[superConstraint]`. -/
theorem c6_build_composition :
    (∀ (nm : String) (pc : Constructor) (cs : List Constraint),
      constraintsOf (Prim nm pc cs) = constraintsOf pc ++ cs) ∧
    (∀ k : PrimKind, constraintsOf (.native k) = [superConstraint]) ∧
    (∀ (nm : String) (k : PrimKind),
      constraintsOf (Prim nm (.native k) []) = [superConstraint]) :=
  ⟨fun _ _ _ => rfl, fun _ => rfl, fun _ _ => rfl⟩

/-- C5 counterexample: for the constructor with a constraint returning the
empty string, `is` returns `true` on `"x"` even though not every constraint
returned `undefined` — the engine's `if (err)` test treats the empty string
as "no error", so the claim's "returns `true` iff every constraint returns
`undefined`" fails as stated. -/
theorem c5_counterexample :
    Constructor.is c5ctor (.str "x") = true ∧
    ¬ (∀ con ∈ constraintsOf c5ctor, con (infoOf c5ctor) (.str "x") = none) := by
  constructor
  · rfl
  · intro h
    have hm : emptyMsgConstraint ∈ constraintsOf c5ctor := by
      simp only [c5ctor, Prim, constraintsOf]
      exact List.mem_append_right _ (List.mem_singleton.mpr rfl)
    have := h emptyMsgConstraint hm
    simp [emptyMsgConstraint] at this

/-- C5 (amended): `is(v)` returns `true` iff every constraint in the
sequence returns a JS-falsy result (`undefined` or the empty string) for
`(constructor, v)`; equivalently, `is(v)` is the absence of a first
JS-truthy failure, which is where rejection is reported. -/
theorem c5_is_semantics (nm : String) (pc : Constructor) (cs : List Constraint) (v : PRIM) :
    (Constructor.is (Prim nm pc cs) v = true ↔
      ∀ con ∈ constraintsOf (Prim nm pc cs),
        jsTruthy (con (infoOf (Prim nm pc cs)) v) = false) ∧
    Constructor.is (Prim nm pc cs) v = (firstFailure (Prim nm pc cs) v).isNone :=
  ⟨is_eq_true_iff _ _, is_eq_firstFailure_isNone _ _⟩

/-- C5 witness: the amended semantics instantiated at the empty-message
constructor and `"x"`. -/
theorem c5_witness :
    (Constructor.is (Prim "T" (.native .str) [emptyMsgConstraint]) (.str "x") = true ↔
      ∀ con ∈ constraintsOf (Prim "T" (.native .str) [emptyMsgConstraint]),
        jsTruthy (con (infoOf (Prim "T" (.native .str) [emptyMsgConstraint])) (.str "x")) = false) ∧
    Constructor.is (Prim "T" (.native .str) [emptyMsgConstraint]) (.str "x") =
      (firstFailure (Prim "T" (.native .str) [emptyMsgConstraint]) (.str "x")).isNone :=
  c5_is_semantics "T" (.native .str) [emptyMsgConstraint] (.str "x")

/-- C4: `as(v)` fails with exactly the message of the first failing
constraint when one fails (a constraint "fails" when it produces a
JS-truthy, i.e. non-empty, message), succeeds with no observable effect
when all pass; `to(v)` performs the same check and returns exactly the
input value `v` on success. -/
theorem c4_as_to_semantics (nm : String) (pc : Constructor) (cs : List Constraint) (v : PRIM) :
    (∀ e, Constructor.as (Prim nm pc cs) v = .error e ↔
      firstFailure (Prim nm pc cs) v = some e) ∧
    (Constructor.as (Prim nm pc cs) v = .ok () ↔
      firstFailure (Prim nm pc cs) v = none) ∧
    (∀ w, Constructor.to (Prim nm pc cs) v = .ok w → w = v) ∧
    (Constructor.as (Prim nm pc cs) v = .ok () →
      Constructor.to (Prim nm pc cs) v = .ok v) := by
  have h := as_eq_firstFailure (Prim nm pc cs) v
  cases hf : firstFailure (Prim nm pc cs) v with
  | none =>
    rw [hf] at h
    refine ⟨fun e => ?_, ?_, fun w hw => ?_, fun _ => ?_⟩
    · simp [h]
    · simp [h]
    · simp only [Constructor.to, h] at hw
      cases hw
      rfl
    · simp [Constructor.to, h]
  | some e0 =>
    rw [hf] at h
    refine ⟨fun e => ?_, ?_, fun w hw => ?_, fun habs => ?_⟩
    · simp [h]
    · simp [h]
    · simp only [Constructor.to, h] at hw
      exact Except.noConfusion hw
    · rw [habs] at h
      cases h

/-- C4 witness: the theorem instantiated at `varchar<5>` and `"123456"`. -/
theorem c4_witness :
    (∀ e, Constructor.as (Prim "varchar<5>" (.native .str) [charsConstraint 5]) (.str "123456") = .error e ↔
      firstFailure (Prim "varchar<5>" (.native .str) [charsConstraint 5]) (.str "123456") = some e) ∧
    (Constructor.as (Prim "varchar<5>" (.native .str) [charsConstraint 5]) (.str "123456") = .ok () ↔
      firstFailure (Prim "varchar<5>" (.native .str) [charsConstraint 5]) (.str "123456") = none) ∧
    (∀ w, Constructor.to (Prim "varchar<5>" (.native .str) [charsConstraint 5]) (.str "123456") = .ok w → w = .str "123456") ∧
    (Constructor.as (Prim "varchar<5>" (.native .str) [charsConstraint 5]) (.str "123456") = .ok () →
      Constructor.to (Prim "varchar<5>" (.native .str) [charsConstraint 5]) (.str "123456") = .ok (.str "123456")) :=
  c4_as_to_semantics "varchar<5>" (.native .str) [charsConstraint 5] (.str "123456")

/-- C8 counterexample: in the extended model, where constraints observe
the receiving constructor's constraint sequence as the source's
`constraint(result, v)` allows, a constraint keying on the sequence order
makes the two permuted builds disagree: the original order accepts `"x"`,
the swapped order rejects it — so unconditional order-independence fails
at the claim's generality. -/
theorem c8_counterexample :
    ([orderSensitiveConstraint, inertSeqConstraint] : List SeqConstraint).Perm
      [inertSeqConstraint, orderSensitiveConstraint] ∧
    SeqConstructor.is
      (seqPrim "t" (.native .str) [orderSensitiveConstraint, inertSeqConstraint]) (.str "x") = true ∧
    SeqConstructor.is
      (seqPrim "t" (.native .str) [inertSeqConstraint, orderSensitiveConstraint]) (.str "x") = false :=
  ⟨List.Perm.swap _ _ _, rfl, rfl⟩

/-- C8 (amended): building the same descriptor with its own constraints in
a permuted order yields the same accept/reject outcome of `is` on a value
provided every constraint in the descriptor's sequence gives the same
verdict under both built descriptors — in particular whenever no
constraint's verdict depends on the receiving constructor's constraint
sequence, which is true of every constraint shipped in the library. -/
theorem c8_order_independence (nm : String) (pc : SeqConstructor)
    (cs cs' : List SeqConstraint) (v : PRIM) (hperm : cs.Perm cs')
    (h : ∀ c ∈ seqConstraintsOf (seqPrim nm pc cs),
      jsTruthy (c.eval (seqInfoOf (seqPrim nm pc cs)) v) =
        jsTruthy (c.eval (seqInfoOf (seqPrim nm pc cs')) v)) :
    SeqConstructor.is (seqPrim nm pc cs) v = SeqConstructor.is (seqPrim nm pc cs') v := by
  have hfull : (seqConstraintsOf (seqPrim nm pc cs)).Perm
      (seqConstraintsOf (seqPrim nm pc cs')) :=
    List.Perm.append_left (seqConstraintsOf pc) hperm
  have key : (SeqConstructor.is (seqPrim nm pc cs) v = true) ↔
      (SeqConstructor.is (seqPrim nm pc cs') v = true) := by
    rw [seqIs_eq_true_iff, seqIs_eq_true_iff]
    constructor
    · intro hall c hc
      have hc1 := hfull.mem_iff.mpr hc
      rw [← h c hc1]
      exact hall c hc1
    · intro hall c hc
      rw [h c hc]
      exact hall c (hfull.mem_iff.mp hc)
  cases h1 : SeqConstructor.is (seqPrim nm pc cs) v <;>
    cases h2 : SeqConstructor.is (seqPrim nm pc cs') v <;>
    simp_all

/-- C8 witness: the amended theorem instantiated at two library-style
chars constraints (which ignore the sequence component of the view) in
both orders, on a four-character string. -/
theorem c8_witness :
    ([seqCharsConstraint 1 3, seqCharsConstraint 2 5] : List SeqConstraint).Perm
      [seqCharsConstraint 2 5, seqCharsConstraint 1 3] ∧
    (∀ c ∈ seqConstraintsOf
        (seqPrim "t" (.native .str) [seqCharsConstraint 1 3, seqCharsConstraint 2 5]),
      jsTruthy (c.eval (seqInfoOf
        (seqPrim "t" (.native .str) [seqCharsConstraint 1 3, seqCharsConstraint 2 5])) (.str "abcd")) =
        jsTruthy (c.eval (seqInfoOf
          (seqPrim "t" (.native .str) [seqCharsConstraint 2 5, seqCharsConstraint 1 3])) (.str "abcd"))) ∧
    SeqConstructor.is
      (seqPrim "t" (.native .str) [seqCharsConstraint 1 3, seqCharsConstraint 2 5]) (.str "abcd") =
      SeqConstructor.is
        (seqPrim "t" (.native .str) [seqCharsConstraint 2 5, seqCharsConstraint 1 3]) (.str "abcd") := by
  have hperm : ([seqCharsConstraint 1 3, seqCharsConstraint 2 5] : List SeqConstraint).Perm
      [seqCharsConstraint 2 5, seqCharsConstraint 1 3] := List.Perm.swap _ _ _
  have h : ∀ c ∈ seqConstraintsOf
      (seqPrim "t" (.native .str) [seqCharsConstraint 1 3, seqCharsConstraint 2 5]),
      jsTruthy (c.eval (seqInfoOf
        (seqPrim "t" (.native .str) [seqCharsConstraint 1 3, seqCharsConstraint 2 5])) (.str "abcd")) =
        jsTruthy (c.eval (seqInfoOf
          (seqPrim "t" (.native .str) [seqCharsConstraint 2 5, seqCharsConstraint 1 3])) (.str "abcd")) := by
    intro c hc
    simp only [seqPrim, seqConstraintsOf, List.singleton_append, List.mem_cons,
      List.not_mem_nil, or_false] at hc
    rcases hc with rfl | rfl | rfl <;> rfl
  exact ⟨hperm, h, c8_order_independence "t" (.native .str) _ _ _ hperm h⟩

/-- C10: invoking the constructor function directly is the same operation
as invoking its `to` method: the produced function forwards to `result.to`,
so both return the same value on success and fail with the same error. -/
theorem c10_call_eq_to (c : Constructor) (v : PRIM) :
    Constructor.call c v = Constructor.to c v ∧
    (Constructor.as c v = .ok () → Constructor.call c v = .ok v) ∧
    (∀ e, Constructor.as c v = .error e → Constructor.call c v = .error e) := by
  refine ⟨rfl, fun h => ?_, fun e h => ?_⟩
  · simp [Constructor.call, Constructor.to, h]
  · simp [Constructor.call, Constructor.to, h]

/-- C10 witness: the theorem instantiated at `varchar<5>` and `"12345"`. -/
theorem c10_witness :
    Constructor.call varchar5 (.str "12345") = Constructor.to varchar5 (.str "12345") ∧
    Constructor.as varchar5 (.str "12345") = .ok () ∧
    Constructor.call varchar5 (.str "12345") = .ok (.str "12345") :=
  ⟨(c10_call_eq_to varchar5 (.str "12345")).1, rfl,
    (c10_call_eq_to varchar5 (.str "12345")).2.1 rfl⟩

/-- C9: the bounded-length string type of maximum length 5 accepts a
5-character string and rejects a 6-character string; the 8-bit signed
bounded integer accepts -128 and 127 and rejects -129 and 128. -/
theorem c9_boundary :
    Constructor.is varchar5 (.str "12345") = true ∧
    Constructor.is varchar5 (.str "123456") = false ∧
    integerIs 8 .signed (.num (-128)) = true ∧
    integerIs 8 .signed (.num 127) = true ∧
    integerIs 8 .signed (.num (-129)) = false ∧
    integerIs 8 .signed (.num 128) = false :=
  ⟨rfl, rfl, rfl, rfl, rfl, rfl⟩

/-- C1 counterexample: with a constraint whose verdict depends on the
receiving descriptor's name, the child `B` (parent `A`, no new
constraints) accepts `"x"` while `A` rejects it — `B.is(v)` does not imply
`A.is(v)` for arbitrary constraint authors, which is why the source calls
the property an unchecked API contract. -/
theorem c1_counterexample :
    Constructor.is ctorB (.str "x") = true ∧ Constructor.is ctorA (.str "x") = false :=
  ⟨rfl, rfl⟩

/-- C1 (amended): if every constraint of the parent `A` gives a verdict on
`v` under the child's identity no more permissive than under `A`'s own
identity (true in particular for constraints whose verdict is independent
of the receiving descriptor, and for the default `superConstraint`, whose
verdict depends only on the underlying kind, which `Prim` preserves), then
every value accepted by the child is accepted by `A`. -/
theorem c1_subtype_soundness (nm : String) (A : Constructor) (cs : List Constraint) (v : PRIM)
    (h : ∀ con ∈ constraintsOf A,
      jsTruthy (con (infoOf A) v) = true →
      jsTruthy (con (infoOf (Prim nm A cs)) v) = true)
    (hB : Constructor.is (Prim nm A cs) v = true) :
    Constructor.is A v = true := by
  rw [is_eq_true_iff] at hB ⊢
  have hB' : ∀ con ∈ constraintsOf A ++ cs,
      jsTruthy (con (infoOf (Prim nm A cs)) v) = false := hB
  intro con hc
  have h1 := hB' con (List.mem_append_left cs hc)
  cases hx : jsTruthy (con (infoOf A) v) with
  | false => rfl
  | true => exact Bool.noConfusion ((h con hc hx).symm.trans h1)

/-- C1 witness: the amended theorem instantiated with the native string
constructor as parent and no new constraints, on `"x"`. -/
theorem c1_witness :
    (∀ con ∈ constraintsOf (Constructor.native .str),
      jsTruthy (con (infoOf (Constructor.native .str)) (.str "x")) = true →
      jsTruthy (con (infoOf (Prim "B" (.native .str) [])) (.str "x")) = true) ∧
    Constructor.is (Prim "B" (.native .str) []) (.str "x") = true ∧
    Constructor.is (Constructor.native .str) (.str "x") = true := by
  have h : ∀ con ∈ constraintsOf (Constructor.native .str),
      jsTruthy (con (infoOf (Constructor.native .str)) (.str "x")) = true →
      jsTruthy (con (infoOf (Prim "B" (.native .str) [])) (.str "x")) = true := by
    intro con hc
    simp only [constraintsOf, List.mem_singleton] at hc
    subst hc
    intro htr
    exact Bool.noConfusion htr
  exact ⟨h, rfl, c1_subtype_soundness "B" (.native .str) [] (.str "x") h rfl⟩

/-- C7: for every requested length below 480 the mapping is exact — the
selected tier is the range `0..N`, it contains `N`, its magnitude is `N`,
and no tier containing `N` has a smaller magnitude. -/
theorem c7_low_end_exact (N : Nat) (h : N < 480) :
    resolveTier N = Tier.exact N ∧
    (∀ k, tierMem (resolveTier N) k = true ↔ k ≤ N) ∧
    tierMagnitude (resolveTier N) = N ∧
    N ≤ tierMagnitude (resolveTier N) ∧
    (∀ T : Tier, tierMem T N = true → tierMagnitude (resolveTier N) ≤ tierMagnitude T) := by
  have hr := resolveTier_lt_480 N h
  refine ⟨hr, fun k => ?_, ?_, ?_, fun T hT => ?_⟩
  · rw [hr]
    simp [tierMem]
  · rw [hr]
    rfl
  · rw [hr]
    simp [tierMagnitude]
  · rw [hr]
    simpa [tierMagnitude] using tierMem_le_magnitude T N hT

/-- C7 witness: the theorem instantiated at `N = 5`. -/
theorem c7_witness :
    5 < 480 ∧
    (resolveTier 5 = Tier.exact 5 ∧
     (∀ k, tierMem (resolveTier 5) k = true ↔ k ≤ 5) ∧
     tierMagnitude (resolveTier 5) = 5 ∧
     5 ≤ tierMagnitude (resolveTier 5) ∧
     (∀ T : Tier, tierMem T 5 = true → tierMagnitude (resolveTier 5) ≤ tierMagnitude T)) :=
  ⟨by decide, c7_low_end_exact 5 (by decide)⟩

/-- C2 divergence: the `range` chain has no alternative for `_608_639`, so
the request `N = 608` falls through to the `_1K` tier of magnitude 1023 —
an over-approximation of 415, far beyond the documented ~32 bound — even
though the source defines the `_640` tier (magnitude 639, error 31), which
contains 608 and is never selected. -/
theorem c2_608_overapproximation :
    resolveTier 608 = Tier.t1K ∧
    tierMagnitude (resolveTier 608) = 1023 ∧
    tierMagnitude (resolveTier 608) - 608 = 415 ∧
    tierMem Tier.t640 608 = true ∧
    tierMagnitude Tier.t640 = 639 ∧
    resolveTier 608 ≠ Tier.t640 := by
  decide

/-- A cache hit returns the cached descriptor and leaves the state alone. -/
theorem Varchar_of_cached (n : Nat) (s : VarcharState) (d : VarcharDescr)
    (h : s.varchars n = some d) : Varchar n s = (d, s) := by
  unfold Varchar
  rw [h]

/-- C3: calling the cached `Varchar` factory twice with the same key
returns the referentially identical descriptor (the very same cached
value), and calling it with two different keys returns descriptors with
distinct allocation identities. -/
theorem c3_cache_idempotent (n m : Nat) (s : VarcharState)
    (hs : VarcharWF s) (hnm : n ≠ m) :
    (Varchar n (Varchar n s).2).1 = (Varchar n s).1 ∧
    ((Varchar n s).1).id ≠ ((Varchar m (Varchar n s).2).1).id := by
  have hc1 : ((Varchar n s).2).varchars n = some (Varchar n s).1 := Varchar_cached n s
  constructor
  · rw [Varchar_of_cached n ((Varchar n s).2) ((Varchar n s).1) hc1]
  · have hwf1 : VarcharWF (Varchar n s).2 := Varchar_wf n s hs
    have hwf2 : VarcharWF (Varchar m (Varchar n s).2).2 :=
      Varchar_wf m ((Varchar n s).2) hwf1
    have hc2 : ((Varchar m (Varchar n s).2).2).varchars m =
        some (Varchar m (Varchar n s).2).1 := Varchar_cached m ((Varchar n s).2)
    have hc1' : ((Varchar m (Varchar n s).2).2).varchars n =
        some (Varchar n s).1 := by
      rw [Varchar_other m n ((Varchar n s).2) hnm]
      exact hc1
    intro heq
    exact hnm (hwf2.2 n m _ _ hc1' hc2 heq)

/-- C3 witness: the cache theorem instantiated at keys 5 and 7 from the
module's empty initial state. -/
theorem c3_witness :
    VarcharWF emptyVarcharState ∧ (5 : Nat) ≠ 7 ∧
    ((Varchar 5 (Varchar 5 emptyVarcharState).2).1 = (Varchar 5 emptyVarcharState).1 ∧
     ((Varchar 5 emptyVarcharState).1).id ≠ ((Varchar 7 (Varchar 5 emptyVarcharState).2).1).id) :=
  ⟨emptyVarcharState_wf, by decide,
    c3_cache_idempotent 5 7 emptyVarcharState emptyVarcharState_wf (by decide)⟩
